import Mathlib

/-!
Verification of the Player-Trends static data pipeline.

This file gives a shallow embedding, in Lean 4, of the parts of the
repository that the specification talks about:

* `src/scripts/build_static_data.py` — the build pipeline: deduplication
  (`dedupe_rows`), the escalation orchestrator (`build_gamelogs`), coverage
  validation (`validate_coverage`), numeric field inference
  (`infer_stat_fields`), season parsing and the manifest default season.
* `src/backend/app/main.py` — the traded-player aggregation
  (`_coalesce_synergy_playtypes`).

Modelling conventions:

* Python dictionaries holding JSON data are modelled as association lists
  `List (String × JVal)` where `JVal` covers the value shapes the code
  distinguishes (null/absent, int, float, numeric strings, other strings).
  Python floats are idealised as rationals; NaN (which `to_float` and
  `_parse_float` reject) has no rational counterpart, so the NaN branch of
  those helpers is vacuous in the model.
* Gamelog rows, as consumed by `dedupe_rows`, `build_gamelogs` and
  `validate_coverage`, only have their `PLAYER_ID`, `GAME_ID` and
  `GAME_DATE` fields inspected; they are modelled by the structure
  `GameRow` with `player_id : Option ℤ` (absent = `none`), the ids as
  strings, and a `tag` field standing for all remaining payload.
* Network calls are modelled by passing the fetched data as parameters:
  `league : Option (List GameRow)` is the `leaguegamelog` result (`none`
  models a raised `requests.RequestException`), `backfill` maps the missing
  player id list to the rows `build_gamelogs_per_player` returns, and
  `cdn` is the row list `build_gamelogs_from_cdn` produces.
-/

namespace Build

/-- A gamelog row, keeping exactly the fields the build script inspects:
`PLAYER_ID` (`none` models an absent or null value), `GAME_ID` and
`GAME_DATE` (the empty string models an absent value, matching
`str(row.get(...) or "")`), and `tag` standing for the rest of the payload. -/
structure GameRow where
  player_id : Option ℤ
  game_id : String
  game_date : String
  tag : ℕ
deriving DecidableEq

/-- Models `int(row.get("PLAYER_ID") or 0)`: an absent value becomes 0. -/
def pidOf (r : GameRow) : ℤ := r.player_id.getD 0

/-- The dedup key `(pid, game_id)` of `dedupe_rows`. -/
def rowKey (r : GameRow) : ℤ × String := (pidOf r, r.game_id)

/-- The condition `pid <= 0 or not game_id` under which `dedupe_rows`
keeps a row without deduplicating it
(src/scripts/build_static_data.py line 380). -/
def bypassB (r : GameRow) : Bool :=
  decide (pidOf r ≤ 0) || decide (r.game_id = "")

/-- The loop of `dedupe_rows` (src/scripts/build_static_data.py
lines 373-388), with the `seen` set made explicit as a list of keys. -/
def dedupeAux (seen : List (ℤ × String)) : List GameRow → List GameRow
  | [] => []
  | r :: rest =>
    if bypassB r then r :: dedupeAux seen rest
    else if rowKey r ∈ seen then dedupeAux seen rest
    else r :: dedupeAux (rowKey r :: seen) rest

/-- Embeds `dedupe_rows` (src/scripts/build_static_data.py lines 373-388). -/
def dedupe_rows (rows : List GameRow) : List GameRow := dedupeAux [] rows

/-- The rows that participate in deduplication and carry the key `k`. -/
def keyMatch (k : ℤ × String) (r : GameRow) : Bool :=
  !bypassB r && decide (rowKey r = k)

lemma dedupeAux_filter_key (k : ℤ × String) :
    ∀ (rows : List GameRow) (seen : List (ℤ × String)),
      (dedupeAux seen rows).filter (keyMatch k) =
        if k ∈ seen then [] else (rows.filter (keyMatch k)).take 1 := by
  intro rows
  induction rows with
  | nil => intro seen; simp [dedupeAux]
  | cons r rest ih =>
    intro seen
    by_cases hb : bypassB r
    · have hkm : keyMatch k r = false := by simp [keyMatch, hb]
      have e : dedupeAux seen (r :: rest) = r :: dedupeAux seen rest := by
        simp [dedupeAux, hb]
      rw [e, List.filter_cons_of_neg, List.filter_cons_of_neg, ih seen] <;>
        simp [hkm]
    · by_cases hseen : rowKey r ∈ seen
      · have e : dedupeAux seen (r :: rest) = dedupeAux seen rest := by
          simp [dedupeAux, hb, hseen]
        rw [e, ih seen]
        by_cases hk : rowKey r = k
        · subst hk
          simp [hseen]
        · have hkm : keyMatch k r = false := by simp [keyMatch, hk]
          rw [List.filter_cons_of_neg]
          · simp [hkm]
      · have e : dedupeAux seen (r :: rest) =
            r :: dedupeAux (rowKey r :: seen) rest := by
          simp [dedupeAux, hb, hseen]
        rw [e]
        by_cases hk : rowKey r = k
        · subst hk
          have hkm : keyMatch (rowKey r) r = true := by simp [keyMatch, hb]
          rw [List.filter_cons_of_pos, List.filter_cons_of_pos,
            ih (rowKey r :: seen)] <;> simp [hkm, hseen]
        · have hkm : keyMatch k r = false := by simp [keyMatch, hk]
          have hk2 : ¬(k = rowKey r) := fun h => hk h.symm
          rw [List.filter_cons_of_neg, List.filter_cons_of_neg,
            ih (rowKey r :: seen)] <;> simp [hkm, hk2]

lemma dedupeAux_filter_bypass :
    ∀ (rows : List GameRow) (seen : List (ℤ × String)),
      (dedupeAux seen rows).filter bypassB = rows.filter bypassB := by
  intro rows
  induction rows with
  | nil => intro seen; simp [dedupeAux]
  | cons r rest ih =>
    intro seen
    by_cases hb : bypassB r
    · simp [dedupeAux, hb, List.filter_cons, ih seen]
    · by_cases hseen : rowKey r ∈ seen
      · simp [dedupeAux, hb, hseen, List.filter_cons, ih seen]
      · simp [dedupeAux, hb, hseen, List.filter_cons, ih (rowKey r :: seen)]

/-- CLAIM C5: `dedupe_rows` keeps, for every (entity, game) key, exactly the
first-seen row among rows whose key is valid (positive id, non-empty game
id) — so at most one such row per key survives — and rows with an invalid
or missing key half bypass deduplication and appear in the output
unmodified, in their original order. -/
theorem c5_dedupe_first_seen_per_key :
    ∀ (rows : List GameRow) (k : ℤ × String),
      ((dedupe_rows rows).filter (keyMatch k)).length ≤ 1
      ∧ (dedupe_rows rows).filter (keyMatch k) = (rows.filter (keyMatch k)).take 1
      ∧ (dedupe_rows rows).filter bypassB = rows.filter bypassB := by
  intro rows k
  have h1 := dedupeAux_filter_key k rows []
  simp only [List.not_mem_nil, if_false] at h1
  refine ⟨?_, ?_, ?_⟩
  · rw [dedupe_rows, h1]
    simp
  · exact h1
  · exact dedupeAux_filter_bypass rows []

lemma dedupeAux_idem :
    ∀ (rows : List GameRow) (seen : List (ℤ × String)),
      dedupeAux seen (dedupeAux seen rows) = dedupeAux seen rows := by
  intro rows
  induction rows with
  | nil => intro seen; simp [dedupeAux]
  | cons r rest ih =>
    intro seen
    by_cases hb : bypassB r
    · simp [dedupeAux, hb, ih seen]
    · by_cases hseen : rowKey r ∈ seen
      · simp [dedupeAux, hb, hseen, ih seen]
      · simp [dedupeAux, hb, hseen, ih (rowKey r :: seen), List.mem_cons]

/-- CLAIM C6: deduplication is idempotent:
`dedupe_rows (dedupe_rows rows) = dedupe_rows rows` for every row list. -/
theorem c6_dedupe_idempotent :
    ∀ rows : List GameRow, dedupe_rows (dedupe_rows rows) = dedupe_rows rows := by
  intro rows
  exact dedupeAux_idem rows []

/-- A roster entry from the players payload, keeping the two fields the
build script reads: `player_id` (`none` models an absent or null value)
and `is_active`. -/
structure Player where
  player_id : Option ℤ
  is_active : Bool
deriving DecidableEq

/-- Python truthiness of an optional integer field: `None` and `0` are
falsy; a truthy value passes through. -/
def truthyId (o : Option ℤ) : Option ℤ :=
  match o with
  | some n => if n = 0 then none else some n
  | none => none

/-- The `active_player_ids` list of `build_gamelogs`
(src/scripts/build_static_data.py lines 393-394): ids of active players
with a truthy `player_id`, restricted to positive ids, deduplicated and
sorted. -/
def activeIds (players : List Player) : List ℤ :=
  List.insertionSort (· ≤ ·)
    (((players.filterMap fun p =>
        if p.is_active then truthyId p.player_id else none).filter
      fun n => decide (0 < n)).dedup)

/-- The `row_player_ids` set of `build_gamelogs` (lines 403 and 416):
ids of rows whose `PLAYER_ID` is truthy, as a deduplicated list. -/
def rowIdsList (rows : List GameRow) : List ℤ :=
  (rows.filterMap fun r => truthyId r.player_id).dedup

/-- The bulk tier: the `leaguegamelog` result, or the empty list when the
request raised (lines 396-401). -/
def bulkRows (league : Option (List GameRow)) : List GameRow :=
  league.getD []

/-- The `missing_player_ids` list (line 404): active ids with no bulk row. -/
def missingIds (players : List Player) (league : Option (List GameRow)) :
    List ℤ :=
  (activeIds players).filter fun pid =>
    decide (pid ∉ rowIdsList (bulkRows league))

/-- The rows after the per-player backfill tier (lines 407-413): when the
bulk result is empty, or on the primary season type more than 25 active
players are missing, the per-player rows for the missing ids are appended;
otherwise the bulk rows stand. `backfill` is the rows
`build_gamelogs_per_player` returns for the missing id list. -/
def tier2Rows (st : String) (players : List Player)
    (league : Option (List GameRow)) (backfill : List ℤ → List GameRow) :
    List GameRow :=
  let rows := bulkRows league
  if rows = [] ∨ (st = "Regular Season" ∧ 25 < (missingIds players league).length)
  then rows ++ backfill (missingIds players league)
  else rows

/-- The `covered` count of `build_gamelogs` (line 417): the size of the
intersection of the active id set with the row id set. `activeIds` has no
duplicates, so filtering it counts the intersection exactly. -/
def coveredCount (players : List Player) (rows : List GameRow) : ℕ :=
  ((activeIds players).filter fun pid => decide (pid ∈ rowIdsList rows)).length

/-- The `coverage` ratio of `build_gamelogs` (line 418): covered divided by
the number of active ids, and 0.0 when there are none. -/
def coverageRatio (players : List Player) (rows : List GameRow) : ℚ :=
  if (activeIds players).length = 0 then 0
  else (coveredCount players rows : ℚ) / ((activeIds players).length : ℚ)

/-- The rebuild trigger of `build_gamelogs` (line 419): on the primary
season type, after backfill, coverage is recomputed and the CDN boxscore
rebuild runs when `covered < 150 or coverage < 0.55`. -/
def rebuildTriggered (st : String) (players : List Player)
    (league : Option (List GameRow)) (backfill : List ℤ → List GameRow) :
    Bool :=
  decide (st = "Regular Season") &&
    (decide (coveredCount players (tier2Rows st players league backfill) < 150) ||
      decide (coverageRatio players (tier2Rows st players league backfill) < 55 / 100))

/-- The assembled rows of `build_gamelogs` after the escalation chain
(lines 419-425): when the rebuild triggers, the bulk+backfill rows are
replaced by the CDN boxscore rows `cdn`; otherwise they stand. -/
def assembledRows (st : String) (players : List Player)
    (league : Option (List GameRow)) (backfill : List ℤ → List GameRow)
    (cdn : List GameRow) : List GameRow :=
  if rebuildTriggered st players league backfill then cdn
  else tier2Rows st players league backfill

/-- Lexicographic comparison of two code points lists, modelling Python
string comparison (used by the row sort key). -/
def charListLt : List Char → List Char → Bool
  | [], [] => false
  | [], _ :: _ => true
  | _ :: _, [] => false
  | a :: as, b :: bs => decide (a < b) || (decide (a = b) && charListLt as bs)

/-- Python `<` on strings: lexicographic on code points. -/
def strLt (a b : String) : Bool := charListLt a.data b.data

/-- The sort key order of `build_gamelogs` (line 428): rows sort by
`(GAME_DATE, PLAYER_ID)`. -/
def rowKeyLe (r s : GameRow) : Bool :=
  strLt r.game_date s.game_date ||
    (decide (r.game_date = s.game_date) && decide (pidOf r ≤ pidOf s))

/-- The stable sort of the assembled rows (line 428). -/
def sortRows (rows : List GameRow) : List GameRow :=
  List.insertionSort (fun a b => rowKeyLe a b = true) rows

/-- The `rows` field of the payload `build_gamelogs` returns
(src/scripts/build_static_data.py lines 391-437): assembled rows from the
escalation chain, deduplicated, then sorted by `(GAME_DATE, PLAYER_ID)`. -/
def build_gamelogs_rows (st : String) (players : List Player)
    (league : Option (List GameRow)) (backfill : List ℤ → List GameRow)
    (cdn : List GameRow) : List GameRow :=
  sortRows (dedupe_rows (assembledRows st players league backfill cdn))

/-- The `active_player_ids` set of `validate_coverage` (lines 455-459):
active players with a non-null `player_id`, as a deduplicated list of
`int(player_id or 0)` values. -/
def vActiveIds (players : List Player) : List ℤ :=
  ((players.filter fun p => p.is_active && p.player_id.isSome).map
    fun p => p.player_id.getD 0).dedup

/-- The `row_player_ids` set of `validate_coverage` (line 449): ids of
rows whose `PLAYER_ID` is not null. -/
def vRowIds (rows : List GameRow) : List ℤ :=
  (rows.filterMap fun r => r.player_id).dedup

/-- The `covered` count of `validate_coverage` (line 460). -/
def vCovered (players : List Player) (rows : List GameRow) : ℕ :=
  ((vActiveIds players).filter fun pid => decide (pid ∈ vRowIds rows)).length

/-- The `coverage` ratio of `validate_coverage` (line 462). -/
def vRatio (players : List Player) (rows : List GameRow) : ℚ :=
  if (vActiveIds players).length = 0 then 0
  else (vCovered players rows : ℚ) / ((vActiveIds players).length : ℚ)

/-- Embeds `validate_coverage` (src/scripts/build_static_data.py lines
440-470) as a predicate: `true` exactly when the function raises its
incomplete-coverage `RuntimeError`. Secondary season types return early
without checking. -/
def validate_coverage_fails (st : String) (players : List Player)
    (rows : List GameRow) : Bool :=
  if st ≠ "Regular Season" then false
  else
    decide (vCovered players rows < 150) ||
      decide (vRatio players rows < 55 / 100)

/-- The spec notion of the active roster entity id set. -/
def specActiveIds (players : List Player) : Finset ℤ :=
  ((players.filter fun p => p.is_active && p.player_id.isSome).map
    fun p => p.player_id.getD 0).toFinset

/-- The spec notion of the entity ids present in the dataset rows. -/
def specRowIds (rows : List GameRow) : Finset ℤ :=
  (rows.filterMap fun r => r.player_id).toFinset

/-- The spec formula: the size of the intersection of active roster ids
with ids present in the rows. -/
def specCovered (players : List Player) (rows : List GameRow) : ℕ :=
  (specActiveIds players ∩ specRowIds rows).card

/-- The spec formula: covered over the number of active roster entities,
0 when that count is 0. -/
def specRatio (players : List Player) (rows : List GameRow) : ℚ :=
  if (specActiveIds players).card = 0 then 0
  else (specCovered players rows : ℚ) / ((specActiveIds players).card : ℚ)

lemma filter_dedup_length_eq_inter_card (L M : List ℤ) :
    (L.dedup.filter fun x => decide (x ∈ M)).length =
      (L.toFinset ∩ M.toFinset).card := by
  have hnd : (L.dedup.filter fun x => decide (x ∈ M)).Nodup :=
    L.nodup_dedup.filter _
  rw [← List.toFinset_card_of_nodup hnd]
  congr 1
  ext x
  simp [List.mem_filter, Finset.mem_inter]

lemma vCovered_eq_specCovered (players : List Player) (rows : List GameRow) :
    vCovered players rows = specCovered players rows := by
  unfold vCovered specCovered specActiveIds specRowIds vActiveIds vRowIds
  rw [filter_dedup_length_eq_inter_card]
  congr 1
  ext x
  simp

lemma vTotal_eq_specTotal (players : List Player) :
    (vActiveIds players).length = (specActiveIds players).card := by
  unfold vActiveIds specActiveIds
  rw [List.card_toFinset]

/-- CLAIM C4: `validate_coverage` raises its incomplete-coverage error if
and only if the season type is the primary one and `covered < 150` or
`ratio < 0.55`, where `covered` is the size of the intersection of the
active roster ids with the ids present in the rows and `ratio` is covered
over the active roster size (0 when the roster is empty); any season type
other than the primary one is accepted unconditionally. -/
theorem c4_validate_coverage_iff :
    ∀ (st : String) (players : List Player) (rows : List GameRow),
      validate_coverage_fails st players rows = true ↔
        st = "Regular Season" ∧
          (specCovered players rows < 150 ∨
            specRatio players rows < 55 / 100) := by
  intro st players rows
  unfold validate_coverage_fails
  by_cases hst : st = "Regular Season"
  · have hcov := vCovered_eq_specCovered players rows
    have htot := vTotal_eq_specTotal players
    have hratio : vRatio players rows = specRatio players rows := by
      unfold vRatio specRatio
      rw [hcov, htot]
    simp [hst, hcov, hratio]
  · simp [hst]

/-- The active entities covered by a row set, per the orchestrator. -/
def coveredIds (players : List Player) (rows : List GameRow) : List ℤ :=
  (activeIds players).filter fun pid => decide (pid ∈ rowIdsList rows)

lemma rowIdsList_append_subset (rows more : List GameRow) :
    ∀ x ∈ rowIdsList rows, x ∈ rowIdsList (rows ++ more) := by
  intro x hx
  unfold rowIdsList at hx ⊢
  rw [List.mem_dedup] at hx ⊢
  rw [List.filterMap_append]
  exact List.mem_append_left _ hx

lemma coveredIds_append_sublist (players : List Player)
    (rows more : List GameRow) :
    (coveredIds players rows).Sublist (coveredIds players (rows ++ more)) := by
  unfold coveredIds
  apply List.monotone_filter_right
  intro a ha
  rw [decide_eq_true_iff] at ha ⊢
  exact rowIdsList_append_subset rows more a ha

lemma coveredCount_append_le (players : List Player)
    (rows more : List GameRow) :
    coveredCount players rows ≤ coveredCount players (rows ++ more) :=
  (coveredIds_append_sublist players rows more).length_le

/-- CLAIM C7 (amended): coverage is monotone from the bulk tier to the
backfill tier — the backfill only appends rows, so every active entity
covered by the bulk rows stays covered and the coverage ratio cannot
decrease. (The rebuild tier, by contrast, replaces the rows wholesale and
can decrease coverage; see the counterexample.) -/
theorem c7_backfill_coverage_monotone :
    ∀ (st : String) (players : List Player) (league : Option (List GameRow))
      (backfill : List ℤ → List GameRow),
      (∀ x ∈ coveredIds players (bulkRows league),
        x ∈ coveredIds players (tier2Rows st players league backfill))
      ∧ coverageRatio players (bulkRows league) ≤
          coverageRatio players (tier2Rows st players league backfill) := by
  intro st players league backfill
  have hcase :
      tier2Rows st players league backfill = bulkRows league ∨
        tier2Rows st players league backfill =
          bulkRows league ++ backfill (missingIds players league) := by
    by_cases hc :
      bulkRows league = [] ∨
        st = "Regular Season" ∧ 25 < (missingIds players league).length
    · right; simp [tier2Rows, hc]
    · left; simp [tier2Rows, hc]
  rcases hcase with h | h
  · rw [h]
    refine ⟨fun x hx => hx, le_refl _⟩
  · rw [h]
    refine ⟨fun x hx => (coveredIds_append_sublist players _ _).mem hx, ?_⟩
    unfold coverageRatio
    by_cases hz : (activeIds players).length = 0
    · simp [hz]
    · rw [if_neg hz, if_neg hz]
      have hpos : (0 : ℚ) < ((activeIds players).length : ℚ) := by
        exact_mod_cast Nat.pos_of_ne_zero hz
      gcongr
      exact_mod_cast coveredCount_append_le players (bulkRows league) _

/-- CLAIM C1 (amended): on the primary season type the rebuild triggers
after backfill exactly when `covered < 150` OR `coverage < 0.55` (a
disjunctive floor, not the conjunction the spec states), and when it
triggers the bulk+backfill rows are discarded in favor of the CDN
rebuild output. -/
theorem c1_rebuild_trigger_or_floor :
    ∀ (st : String) (players : List Player) (league : Option (List GameRow))
      (backfill : List ℤ → List GameRow) (cdn : List GameRow),
      (rebuildTriggered st players league backfill = true ↔
        st = "Regular Season" ∧
          (coveredCount players (tier2Rows st players league backfill) < 150 ∨
            coverageRatio players (tier2Rows st players league backfill) <
              55 / 100))
      ∧ (rebuildTriggered st players league backfill = true →
          assembledRows st players league backfill cdn = cdn) := by
  intro st players league backfill cdn
  constructor
  · simp [rebuildTriggered]
  · intro h
    simp [assembledRows, h]

/-- A well-formed sample gamelog row used by the concrete evaluations. -/
def sampleRow : GameRow := ⟨some 1, "0012300001", "2025-01-01", 0⟩

/-- A roster with a single active player, id 1. -/
def onePlayer : List Player := [⟨some 1, true⟩]

/-- A roster with two active players, ids 1 and 2. -/
def twoPlayers : List Player := [⟨some 1, true⟩, ⟨some 2, true⟩]

/-- A bulk fetch result holding one row for player 1. -/
def sampleLeague : Option (List GameRow) := some [sampleRow]

/-- A backfill tier returning no rows. -/
def emptyBackfill : List ℤ → List GameRow := fun _ => []

/-- COUNTEREXAMPLE to CLAIM C1 as stated: with one active player whose row
is in the bulk result, covered = 1 < 150 but coverage = 1.0 ≥ 0.55, so the
conjunctive hard floor of the claim does not hold, yet the code triggers
the rebuild (the source uses `or`, line 419). -/
theorem c1_and_floor_false :
    rebuildTriggered "Regular Season" onePlayer sampleLeague emptyBackfill =
      true
    ∧ ¬(coveredCount onePlayer
          (tier2Rows "Regular Season" onePlayer sampleLeague emptyBackfill) <
            150
        ∧ coverageRatio onePlayer
            (tier2Rows "Regular Season" onePlayer sampleLeague emptyBackfill) <
              55 / 100) := by
  constructor
  · decide
  · rintro ⟨-, h2⟩
    have hc : coveredCount onePlayer
        (tier2Rows "Regular Season" onePlayer sampleLeague emptyBackfill) = 1 := by
      decide
    have hl : (activeIds onePlayer).length = 1 := by decide
    rw [coverageRatio, hl, hc] at h2
    norm_num at h2

/-- COUNTEREXAMPLE to CLAIM C7 as stated: the rebuild tier replaces the
rows wholesale, so its dataset can cover strictly fewer active entities
than the backfill tier: here the bulk+backfill rows cover the whole
roster (ratio 1) while the rebuild output is empty (ratio 0). -/
theorem c7_rebuild_can_decrease_coverage :
    coverageRatio onePlayer
        (assembledRows "Regular Season" onePlayer sampleLeague emptyBackfill
          []) <
      coverageRatio onePlayer
        (tier2Rows "Regular Season" onePlayer sampleLeague emptyBackfill) := by
  have ha : assembledRows "Regular Season" onePlayer sampleLeague
      emptyBackfill [] = ([] : List GameRow) := by decide
  have hc0 : coveredCount onePlayer ([] : List GameRow) = 0 := by decide
  have hc1 : coveredCount onePlayer
      (tier2Rows "Regular Season" onePlayer sampleLeague emptyBackfill) = 1 := by
    decide
  have hl : (activeIds onePlayer).length = 1 := by decide
  rw [ha, coverageRatio, coverageRatio, hl, hc0, hc1]
  norm_num

/-- The state of the output directory when the build starts: whether a
previously published gamelog artifact for the (season, season type) at
hand exists on disk. `main` reads the output directory only inside
`build_players` (roster fallback); the gamelog publish step below never
consults it. -/
structure OutputState where
  previous_gamelog_exists : Bool

/-- The error a failing build raises: `validate_coverage` raises
`RuntimeError` for incomplete coverage. -/
inductive BuildError where
  | incompleteCoverage
deriving DecidableEq

set_option linter.unusedVariables false in
/-- The per-(season, season type) gamelog publish step of `main`
(src/scripts/build_static_data.py lines 507-515): build the payload, run
`validate_coverage` — which is not wrapped in any try/except, so a raise
propagates and aborts the run before `dump_json` — and otherwise publish
the rows. The output state is threaded to show it is never consulted. -/
def publish_gamelogs (env : OutputState) (st : String)
    (players : List Player) (league : Option (List GameRow))
    (backfill : List ℤ → List GameRow) (cdn : List GameRow) :
    Except BuildError (List GameRow) :=
  let payload := build_gamelogs_rows st players league backfill cdn
  if validate_coverage_fails st players payload then
    Except.error BuildError.incompleteCoverage
  else Except.ok payload

/-- CLAIM C2 (amended): when coverage validation fails, the run aborts
with the fatal incomplete-coverage error regardless of whether a
previously published artifact exists; no cached-artifact republish path
exists for validation failures (the cached fallback in the source lives
only in `build_players`, for roster download failures). -/
theorem c2_validation_failure_always_aborts :
    ∀ (env : OutputState) (st : String) (players : List Player)
      (league : Option (List GameRow)) (backfill : List ℤ → List GameRow)
      (cdn : List GameRow),
      validate_coverage_fails st players
          (build_gamelogs_rows st players league backfill cdn) = true →
        publish_gamelogs env st players league backfill cdn =
          Except.error BuildError.incompleteCoverage := by
  intro env st players league backfill cdn h
  simp [publish_gamelogs, h]

/-- Witness for C2: a run whose coverage validation fails, with a
previous artifact present, ends in the fatal error. -/
theorem c2_abort_witness :
    validate_coverage_fails "Regular Season" onePlayer
        (build_gamelogs_rows "Regular Season" onePlayer sampleLeague
          emptyBackfill []) = true
    ∧ publish_gamelogs ⟨true⟩ "Regular Season" onePlayer sampleLeague
        emptyBackfill [] = Except.error BuildError.incompleteCoverage :=
  ⟨by decide,
    c2_validation_failure_always_aborts ⟨true⟩ "Regular Season" onePlayer
      sampleLeague emptyBackfill [] (by decide)⟩

/-- COUNTEREXAMPLE to CLAIM C2 as stated: a previously published artifact
exists (`previous_gamelog_exists = true`) and coverage validation fails,
yet the run ends in the fatal error instead of republishing the cached
artifact — the publish step does not even read the output state. -/
theorem c2_no_cached_republish :
    (OutputState.mk true).previous_gamelog_exists = true
    ∧ validate_coverage_fails "Regular Season" onePlayer
        (build_gamelogs_rows "Regular Season" onePlayer sampleLeague
          emptyBackfill []) = true
    ∧ publish_gamelogs ⟨true⟩ "Regular Season" onePlayer sampleLeague
        emptyBackfill [] = Except.error BuildError.incompleteCoverage := by
  refine ⟨rfl, by decide, ?_⟩
  have hv : validate_coverage_fails "Regular Season" onePlayer
      (build_gamelogs_rows "Regular Season" onePlayer sampleLeague
        emptyBackfill []) = true := by decide
  simp [publish_gamelogs, hv]

lemma mem_of_mem_dedupeAux :
    ∀ (rows : List GameRow) (seen : List (ℤ × String)) (r : GameRow),
      r ∈ dedupeAux seen rows → r ∈ rows := by
  intro rows
  induction rows with
  | nil => intro seen r h; simp [dedupeAux] at h
  | cons x rest ih =>
    intro seen r h
    by_cases hb : bypassB x
    · rw [show dedupeAux seen (x :: rest) = x :: dedupeAux seen rest by
        simp [dedupeAux, hb]] at h
      rcases List.mem_cons.mp h with h1 | h1
      · exact h1 ▸ List.mem_cons_self x rest
      · exact List.mem_cons_of_mem x (ih seen r h1)
    · by_cases hseen : rowKey x ∈ seen
      · rw [show dedupeAux seen (x :: rest) = dedupeAux seen rest by
          simp [dedupeAux, hb, hseen]] at h
        exact List.mem_cons_of_mem x (ih seen r h)
      · rw [show dedupeAux seen (x :: rest) =
            x :: dedupeAux (rowKey x :: seen) rest by
          simp [dedupeAux, hb, hseen]] at h
        rcases List.mem_cons.mp h with h1 | h1
        · exact h1 ▸ List.mem_cons_self x rest
        · exact List.mem_cons_of_mem x (ih (rowKey x :: seen) r h1)

/-- CLAIM C3 (amended): the pipeline synthesizes no rows at all — every
row of the built dataset comes from one of the source tiers (bulk plus
backfill, or the CDN rebuild). Active roster entries with zero observed
rows are simply absent from the dataset; no placeholder row with a
sentinel game id is emitted for them. -/
theorem c3_rows_from_sources_only :
    ∀ (st : String) (players : List Player) (league : Option (List GameRow))
      (backfill : List ℤ → List GameRow) (cdn : List GameRow) (r : GameRow),
      r ∈ build_gamelogs_rows st players league backfill cdn →
        r ∈ tier2Rows st players league backfill ∨ r ∈ cdn := by
  intro st players league backfill cdn r h
  rw [build_gamelogs_rows, sortRows] at h
  rw [(List.perm_insertionSort _ _).mem_iff] at h
  have h2 := mem_of_mem_dedupeAux _ [] r h
  by_cases ht : rebuildTriggered st players league backfill
  · rw [show assembledRows st players league backfill cdn = cdn by
      simp [assembledRows, ht]] at h2
    exact Or.inr h2
  · rw [show assembledRows st players league backfill cdn =
        tier2Rows st players league backfill by
      simp [assembledRows, ht]] at h2
    exact Or.inl h2

/-- Witness for C3: a concrete playoff build whose single output row is
the bulk row, which indeed came from the bulk tier. -/
theorem c3_witness :
    sampleRow ∈ build_gamelogs_rows "Playoffs" twoPlayers sampleLeague
        emptyBackfill []
    ∧ (sampleRow ∈ tier2Rows "Playoffs" twoPlayers sampleLeague emptyBackfill
        ∨ sampleRow ∈ ([] : List GameRow)) :=
  ⟨by decide,
    c3_rows_from_sources_only "Playoffs" twoPlayers sampleLeague emptyBackfill
      [] sampleRow (by decide)⟩

/-- Python `str.startswith`. -/
def startsWithPy (pat s : String) : Bool :=
  decide (s.data.take pat.data.length = pat.data)

/-- COUNTEREXAMPLE to CLAIM C3 as stated: in a build where active player 2
has zero observed rows, the output consists of the single genuine bulk
row — no row with a sentinel game id prefixed `NO_GAME_` and no row for
player 2 is emitted anywhere in the dataset. -/
theorem c3_no_placeholder_rows :
    (2 : ℤ) ∈ activeIds twoPlayers
    ∧ build_gamelogs_rows "Playoffs" twoPlayers sampleLeague emptyBackfill []
        = [sampleRow]
    ∧ startsWithPy "NO_GAME_" sampleRow.game_id = false
    ∧ pidOf sampleRow ≠ 2 := by
  refine ⟨by decide, by decide, by decide, by decide⟩

end Build

namespace Json

/-- A JSON-ish Python value, covering the shapes the code distinguishes:
null (also standing for an absent key), integers, floats (idealised as
rationals), strings that parse as an integer, strings that parse as a
float but not as an integer, and all other strings. -/
inductive JVal where
  | null
  | jint (n : ℤ)
  | jfloat (q : ℚ)
  | numStr (n : ℤ)
  | fracStr (q : ℚ)
  | rawStr (s : String)
deriving DecidableEq

/-- Python `float(value)`, returning `none` where the call raises
`TypeError` or `ValueError`. NaN never arises among rationals. -/
def pyFloat : JVal → Option ℚ
  | .null => none
  | .jint n => some (n : ℚ)
  | .jfloat q => some q
  | .numStr n => some (n : ℚ)
  | .fracStr q => some q
  | .rawStr _ => none

/-- Python `int(value)`: floats truncate toward zero, integer strings
parse, fractional strings and other strings raise, null raises. -/
def pyInt : JVal → Option ℤ
  | .null => none
  | .jint n => some n
  | .jfloat q => some (q.num.tdiv (q.den : ℤ))
  | .numStr n => some n
  | .fracStr _ => none
  | .rawStr _ => none

/-- A Python dict with JSON-ish values, as an association list with the
keys pairwise distinct (dicts keep one entry per key). -/
abbrev Dict := List (String × JVal)

/-- Python `row.get(key)`: the stored value, or null when absent. -/
def dget : Dict → String → JVal
  | [], _ => .null
  | (k0, v) :: rest, k => if k0 = k then v else dget rest k

/-- Python `key in row`. -/
def dhas : Dict → String → Bool
  | [], _ => false
  | (k0, _) :: rest, k => decide (k0 = k) || dhas rest k

/-- Python `row[key] = value`: replace the entry in place, or append. -/
def dset : Dict → String → JVal → Dict
  | [], k, v => [(k, v)]
  | (k0, v0) :: rest, k, v =>
    if k0 = k then (k, v) :: rest else (k0, v0) :: dset rest k v

/-- Python `row.keys()` in insertion order. -/
def keys (d : Dict) : List String := d.map Prod.fst

lemma dget_dset (d : Dict) (k : String) (v : JVal) (k2 : String) :
    dget (dset d k v) k2 = if k = k2 then v else dget d k2 := by
  induction d with
  | nil => simp [dset, dget]
  | cons p rest ih =>
    obtain ⟨k0, v0⟩ := p
    by_cases h0 : k0 = k
    · subst h0
      simp only [dset, if_pos rfl, dget]
      by_cases h2 : k0 = k2 <;> simp [h2]
    · simp only [dset, if_neg h0, dget]
      by_cases h2 : k0 = k2
      · subst h2
        have : ¬(k = k0) := fun h => h0 h.symm
        simp [this]
      · simp [h2, ih]

end Json

namespace Build

/-- Embeds `to_float` (src/scripts/build_static_data.py lines 117-124):
`float(value)` with NaN mapped to `None` — vacuous here since no rational
is NaN. -/
def to_float (v : Json.JVal) : Option ℚ := Json.pyFloat v

/-- Lexicographic less-or-equal on code point lists, modelling Python
string comparison. -/
def charListLe : List Char → List Char → Bool
  | [], _ => true
  | _ :: _, [] => false
  | a :: as, b :: bs => decide (a < b) || (decide (a = b) && charListLe as bs)

/-- Python `<=` on strings. -/
def strLe (a b : String) : Bool := charListLe a.data b.data

lemma charListLe_cons (a b : Char) (as bs : List Char) :
    charListLe (a :: as) (b :: bs) = true ↔
      a < b ∨ (a = b ∧ charListLe as bs = true) := by
  simp [charListLe, Bool.or_eq_true, Bool.and_eq_true, decide_eq_true_iff]

lemma charListLe_total :
    ∀ as bs : List Char, charListLe as bs = true ∨ charListLe bs as = true := by
  intro as
  induction as with
  | nil => intro bs; left; rfl
  | cons a as ih =>
    intro bs
    cases bs with
    | nil => right; rfl
    | cons b bs =>
      rcases lt_trichotomy a b with h | h | h
      · left; exact (charListLe_cons a b as bs).mpr (Or.inl h)
      · subst h
        rcases ih bs with h2 | h2
        · left; exact (charListLe_cons a a as bs).mpr (Or.inr ⟨rfl, h2⟩)
        · right; exact (charListLe_cons a a bs as).mpr (Or.inr ⟨rfl, h2⟩)
      · right; exact (charListLe_cons b a bs as).mpr (Or.inl h)

lemma charListLe_trans :
    ∀ as bs cs : List Char, charListLe as bs = true →
      charListLe bs cs = true → charListLe as cs = true := by
  intro as
  induction as with
  | nil => intro bs cs _ _; rfl
  | cons a as ih =>
    intro bs cs h1 h2
    cases bs with
    | nil => exact absurd h1 (by simp [charListLe])
    | cons b bs =>
      cases cs with
      | nil => exact absurd h2 (by simp [charListLe])
      | cons c cs =>
        rw [charListLe_cons] at h1 h2 ⊢
        rcases h1 with h1 | ⟨h1e, h1r⟩
        · rcases h2 with h2 | ⟨h2e, h2r⟩
          · exact Or.inl (lt_trans h1 h2)
          · exact Or.inl (h2e ▸ h1)
        · rcases h2 with h2 | ⟨h2e, h2r⟩
          · exact Or.inl (h1e ▸ h2)
          · exact Or.inr ⟨h1e.trans h2e, ih bs cs h1r h2r⟩

instance : IsTotal String (fun a b => strLe a b = true) :=
  ⟨fun a b => charListLe_total a.data b.data⟩

instance : IsTrans String (fun a b => strLe a b = true) :=
  ⟨fun a b c => charListLe_trans a.data b.data c.data⟩

/-- Python `sorted` on a list of strings. -/
def sortStrings (l : List String) : List String :=
  List.insertionSort (fun a b => strLe a b = true) l

/-- The identifier denylist of `infer_stat_fields` (line 131). -/
def blacklistKeys : List String :=
  ["PLAYER_ID", "TEAM_ID", "GAME_ID", "GAME_DATE_EST"]

/-- Python `key.endswith("_RANK")`. -/
def endsWithRank (k : String) : Bool :=
  decide ("_RANK".data.length ≤ k.data.length) &&
    decide (k.data.drop (k.data.length - "_RANK".data.length) = "_RANK".data)

/-- The per-key test of `infer_stat_fields` (lines 133-137): keep a key
unless denylisted or rank-suffixed, when ANY row value parses as float. -/
def statFieldCandidate (rows : List Json.Dict) (k : String) : Bool :=
  !decide (k ∈ blacklistKeys) && !endsWithRank k &&
    rows.any fun r => (to_float (Json.dget r k)).isSome

/-- Embeds `infer_stat_fields` (src/scripts/build_static_data.py lines
127-138): empty input yields `[]`; otherwise the keys of the FIRST row
are filtered by `statFieldCandidate` over all rows, deduplicated
(`set(out)`) and sorted. -/
def infer_stat_fields (rows : List Json.Dict) : List String :=
  match rows with
  | [] => []
  | r0 :: _ =>
    sortStrings (((Json.keys r0).filter (statFieldCandidate rows)).dedup)

/-- CLAIM C9 (amended): for a non-empty row list the inferred field list
is sorted, and a field is included exactly when it is a key OF THE FIRST
ROW that is not denylisted, not rank-suffixed, and some row value for it
parses as a float. (The claim as stated quantifies over all fields; keys
appearing only in later rows are never considered.) -/
theorem c9_infer_stat_fields_first_row_keys :
    ∀ (r0 : Json.Dict) (rest : List Json.Dict),
      List.Sorted (fun a b => strLe a b = true) (infer_stat_fields (r0 :: rest))
      ∧ ∀ k : String,
          k ∈ infer_stat_fields (r0 :: rest) ↔
            k ∈ Json.keys r0 ∧ k ∉ blacklistKeys ∧ endsWithRank k = false ∧
              ∃ r ∈ r0 :: rest, (to_float (Json.dget r k)).isSome = true := by
  intro r0 rest
  constructor
  · exact List.sorted_insertionSort _ _
  · intro k
    rw [show infer_stat_fields (r0 :: rest) =
        sortStrings (((Json.keys r0).filter
          (statFieldCandidate (r0 :: rest))).dedup) from rfl]
    rw [sortStrings, (List.perm_insertionSort _ _).mem_iff, List.mem_dedup,
      List.mem_filter]
    simp [statFieldCandidate, Bool.and_eq_true, List.any_eq_true,
      and_assoc]

/-- COUNTEREXAMPLE to CLAIM C9 as stated: the field `B` is not
denylisted, not rank-suffixed, and the second row's value for it parses
as a float, yet it is not in the inferred field list, because only the
first row's keys are examined. -/
theorem c9_second_row_key_missing :
    ("B" ∉ blacklistKeys)
    ∧ endsWithRank "B" = false
    ∧ ([[(("A" : String), Json.JVal.jint 1)],
        [(("B" : String), Json.JVal.jint 2)]].any
          fun r => (to_float (Json.dget r "B")).isSome) = true
    ∧ "B" ∉ infer_stat_fields
        [[(("A" : String), Json.JVal.jint 1)],
          [(("B" : String), Json.JVal.jint 2)]] := by
  refine ⟨by decide, by decide, by decide, by decide⟩

/-- The fallback season list (src/scripts/build_static_data.py line 22). -/
def DEFAULT_SEASONS : List String := ["2025-26", "2024-25", "2023-24"]

/-- Embeds `parse_seasons` (lines 478-482): `None` or an empty string
yields the defaults; otherwise split on commas, strip, drop empties, and
fall back to the defaults when nothing remains. -/
def parse_seasons (raw : Option String) : List String :=
  match raw with
  | none => DEFAULT_SEASONS
  | some s =>
    if s = "" then DEFAULT_SEASONS
    else
      let out := ((s.splitOn ",").map (fun x => x.trim)).filter
        fun x => decide (x ≠ "")
      if out = [] then DEFAULT_SEASONS else out

/-- The `default_season` manifest entry of `main` (line 519): the
requested default when it occurs in the season list, else the first
season. `head?` models the `seasons[0]` indexing, which would fail on an
empty list — `parse_seasons` never produces one. -/
def manifest_default_season (requested : String) (seasons : List String) :
    Option String :=
  if requested ∈ seasons then some requested else seasons.head?

lemma parse_seasons_ne_nil : ∀ raw : Option String, parse_seasons raw ≠ [] := by
  intro raw
  match raw with
  | none => simp [parse_seasons, DEFAULT_SEASONS]
  | some s =>
    have e : parse_seasons (some s) =
        if s = "" then DEFAULT_SEASONS
        else
          if ((s.splitOn ",").map (fun x => x.trim)).filter
              (fun x => decide (x ≠ "")) = [] then DEFAULT_SEASONS
          else ((s.splitOn ",").map (fun x => x.trim)).filter
            (fun x => decide (x ≠ "")) := rfl
    rw [e]
    by_cases hs : s = ""
    · rw [if_pos hs]; simp [DEFAULT_SEASONS]
    · rw [if_neg hs]
      by_cases hout : ((s.splitOn ",").map (fun x => x.trim)).filter
          (fun x => decide (x ≠ "")) = []
      · rw [if_pos hout]; simp [DEFAULT_SEASONS]
      · rw [if_neg hout]; exact hout

/-- CLAIM C10: for every run, the manifest default season is a member of
the manifest season list: the requested default is used when it occurs in
the parsed season list, and otherwise the first parsed season — which
always exists — is substituted. -/
theorem c10_manifest_default_in_seasons :
    ∀ (raw : Option String) (requested : String),
      ∃ d : String,
        manifest_default_season requested (parse_seasons raw) = some d
        ∧ d ∈ parse_seasons raw := by
  intro raw requested
  by_cases h : requested ∈ parse_seasons raw
  · exact ⟨requested, by simp [manifest_default_season, h], h⟩
  · have hne := parse_seasons_ne_nil raw
    obtain ⟨d, rest, e⟩ : ∃ d rest, parse_seasons raw = d :: rest := by
      cases hp : parse_seasons raw with
      | nil => exact absurd hp hne
      | cons d rest => exact ⟨d, rest, rfl⟩
    refine ⟨d, ?_, ?_⟩
    · unfold manifest_default_season
      rw [if_neg h, e]
      rfl
    · rw [e]; exact List.mem_cons_self d rest

end Build

namespace Backend

/-- Embeds `_parse_float` (src/backend/app/main.py lines 88-96): the
float parse with NaN rejected — vacuous on rationals. -/
def parse_float (v : Json.JVal) : Option ℚ := Json.pyFloat v

/-- Embeds `_safe_number` (lines 173-175): unparsable values become 0. -/
def safe_number (v : Json.JVal) : ℚ := (parse_float v).getD 0

/-- The key probe order of `_player_id_from_row` (lines 130-137). -/
def idKeys : List String :=
  ["PLAYER_ID", "PERSON_ID", "player_id", "person_id", "playerId", "personId"]

/-- The probe loop of `_player_id_from_row`: for each present key, try
`int(...)`; on a parse failure move to the next key. -/
def probeId (row : Json.Dict) : List String → Option ℤ
  | [] => none
  | k :: ks =>
    if Json.dhas row k then
      match Json.pyInt (Json.dget row k) with
      | some n => some n
      | none => probeId row ks
    else probeId row ks

/-- Embeds `_player_id_from_row` (src/backend/app/main.py lines 129-144). -/
def player_id_from_row (row : Json.Dict) : Option ℤ := probeId row idKeys

/-- Round-half-to-even on rationals, the idealisation of Python `round`
on exact values. -/
def roundHalfEven (q : ℚ) : ℤ :=
  if q - (⌊q⌋ : ℚ) < 1 / 2 then ⌊q⌋
  else if (1 : ℚ) / 2 < q - (⌊q⌋ : ℚ) then ⌊q⌋ + 1
  else if ⌊q⌋ % 2 = 0 then ⌊q⌋ else ⌊q⌋ + 1

/-- Python `round(x, 3)` on exact rationals. -/
def round3 (q : ℚ) : ℚ := (roundHalfEven (q * 1000) : ℚ) / 1000

/-- Python `round(x, 6)` on exact rationals. -/
def round6 (q : ℚ) : ℚ := (roundHalfEven (q * 1000000) : ℚ) / 1000000

/-- A `sum(_safe_number(r.get(f)) for r in rs)` total. -/
def sumSafe (rs : List Json.Dict) (f : String) : ℚ :=
  (rs.map fun r => safe_number (Json.dget r f)).sum

/-- The `poss_weighted` closure of `_coalesce_synergy_playtypes`
(lines 205-211): possession-weighted average, 0 when total possessions
are not positive. -/
def possWeighted (rs : List Json.Dict) (f : String) : ℚ :=
  if sumSafe rs "POSS" ≤ 0 then 0
  else
    (rs.map fun r =>
      safe_number (Json.dget r f) * safe_number (Json.dget r "POSS")).sum /
      sumSafe rs "POSS"

/-- The consolidated row `_coalesce_synergy_playtypes` synthesizes for a
player with more than one row (src/backend/app/main.py lines 197-236):
the first row of the group with summed counting stats (rounded to 3
decimals), the sentinel team identity, recomputed rate fields (rounded to
6 decimals) and possession-weighted percentage fields. -/
def merge_group (player_rows : List Json.Dict) : Json.Dict :=
  let base := player_rows.headI
  let total_poss := sumSafe player_rows "POSS"
  let total_pts := sumSafe player_rows "PTS"
  let total_fgm := sumSafe player_rows "FGM"
  let total_fga := sumSafe player_rows "FGA"
  let total_fgmx := sumSafe player_rows "FGMX"
  let total_gp := sumSafe player_rows "GP"
  let b1 := Json.dset base "TEAM_ID" (.jint 0)
  let b2 := Json.dset b1 "TEAM_ABBREVIATION" (.rawStr "TOT")
  let b3 := Json.dset b2 "TEAM_NAME" (.rawStr "Traded Players")
  let b4 := Json.dset b3 "GP" (.jint (roundHalfEven total_gp))
  let b5 := Json.dset b4 "POSS" (.jfloat (round3 total_poss))
  let b6 := Json.dset b5 "PTS" (.jfloat (round3 total_pts))
  let b7 := Json.dset b6 "FGM" (.jfloat (round3 total_fgm))
  let b8 := Json.dset b7 "FGA" (.jfloat (round3 total_fga))
  let b9 := Json.dset b8 "FGMX" (.jfloat (round3 total_fgmx))
  let b10 := Json.dset b9 "PPP"
    (.jfloat (round6 (if 0 < total_poss then total_pts / total_poss else 0)))
  let b11 := Json.dset b10 "FG_PCT"
    (.jfloat (round6 (if 0 < total_fga then total_fgm / total_fga else 0)))
  let b12 := Json.dset b11 "EFG_PCT"
    (.jfloat (round6 (if 0 < total_fga then
      (total_fgm + 1 / 2 * total_fgmx) / total_fga else 0)))
  let b13 := Json.dset b12 "POSS_PCT"
    (.jfloat (round6 (possWeighted player_rows "POSS_PCT")))
  let b14 := Json.dset b13 "FT_POSS_PCT"
    (.jfloat (round6 (possWeighted player_rows "FT_POSS_PCT")))
  let b15 := Json.dset b14 "TOV_POSS_PCT"
    (.jfloat (round6 (possWeighted player_rows "TOV_POSS_PCT")))
  let b16 := Json.dset b15 "SF_POSS_PCT"
    (.jfloat (round6 (possWeighted player_rows "SF_POSS_PCT")))
  let b17 := Json.dset b16 "PLUSONE_POSS_PCT"
    (.jfloat (round6 (possWeighted player_rows "PLUSONE_POSS_PCT")))
  let b18 := Json.dset b17 "SCORE_POSS_PCT"
    (.jfloat (round6 (possWeighted player_rows "SCORE_POSS_PCT")))
  Json.dset b18 "PERCENTILE"
    (.jfloat (round6 (possWeighted player_rows "PERCENTILE")))

/-- The grouping step of `_coalesce_synergy_playtypes` (lines 181-189):
`grouped.setdefault(pid, []).append(row)` in dict insertion order. -/
def addToGroup : List (ℤ × List Json.Dict) → ℤ → Json.Dict →
    List (ℤ × List Json.Dict)
  | [], pid, r => [(pid, [r])]
  | (k, rs) :: rest, pid, r =>
    if k = pid then (k, rs ++ [r]) :: rest
    else (k, rs) :: addToGroup rest pid r

/-- Partition rows into per-player groups and the passthrough list of
rows with no resolvable player id (lines 181-189). -/
def splitGroups (rows : List Json.Dict) :
    List (ℤ × List Json.Dict) × List Json.Dict :=
  rows.foldl
    (fun acc row =>
      match player_id_from_row row with
      | none => (acc.1, acc.2 ++ [row])
      | some pid => (addToGroup acc.1 pid row, acc.2))
    ([], [])

/-- Embeds `_coalesce_synergy_playtypes` (src/backend/app/main.py lines
178-239): single-row groups pass through unchanged, larger groups are
consolidated by `merge_group`, and rows without a player id are appended
unchanged at the end. -/
def coalesce_synergy_playtypes (rows : List Json.Dict) : List Json.Dict :=
  let parts := splitGroups rows
  (parts.1.map fun g =>
    if g.2.length = 1 then g.2.headI else merge_group g.2) ++ parts.2

/-- Every row of the group has an integer value (0 for missing or
unparsable) in field `f`. -/
def intValued (rs : List Json.Dict) (f : String) : Prop :=
  ∀ r ∈ rs, ∃ n : ℤ, safe_number (Json.dget r f) = (n : ℚ)

lemma sumSafe_int (rs : List Json.Dict) (f : String) (h : intValued rs f) :
    ∃ N : ℤ, sumSafe rs f = (N : ℚ) := by
  induction rs with
  | nil => exact ⟨0, by simp [sumSafe]⟩
  | cons r rest ih =>
    obtain ⟨n, hn⟩ := h r (List.mem_cons_self r rest)
    obtain ⟨N, hN⟩ := ih fun x hx => h x (List.mem_cons_of_mem r hx)
    refine ⟨n + N, ?_⟩
    rw [sumSafe, List.map_cons, List.sum_cons, hn]
    rw [sumSafe] at hN
    rw [hN]
    push_cast
    ring

lemma roundHalfEven_intCast (n : ℤ) : roundHalfEven (n : ℚ) = n := by
  unfold roundHalfEven
  rw [Int.floor_intCast]
  norm_num

lemma round3_intCast (n : ℤ) : round3 (n : ℚ) = (n : ℚ) := by
  unfold round3
  have h : ((n : ℚ) * 1000) = ((n * 1000 : ℤ) : ℚ) := by push_cast; ring
  rw [h, roundHalfEven_intCast]
  push_cast
  ring_nf

lemma merge_group_POSS (g : List Json.Dict) :
    Json.dget (merge_group g) "POSS" = .jfloat (round3 (sumSafe g "POSS")) := by
  simp [merge_group, Json.dget_dset]

lemma merge_group_PTS (g : List Json.Dict) :
    Json.dget (merge_group g) "PTS" = .jfloat (round3 (sumSafe g "PTS")) := by
  simp [merge_group, Json.dget_dset]

lemma merge_group_FGM (g : List Json.Dict) :
    Json.dget (merge_group g) "FGM" = .jfloat (round3 (sumSafe g "FGM")) := by
  simp [merge_group, Json.dget_dset]

lemma merge_group_FGA (g : List Json.Dict) :
    Json.dget (merge_group g) "FGA" = .jfloat (round3 (sumSafe g "FGA")) := by
  simp [merge_group, Json.dget_dset]

/-- CLAIM C8 (amended): for every aggregated group of two or more rows
whose counting stats (possessions, points, makes, attempts) are integer
valued — as genuine counting stats are — the consolidated row carries
exactly the sum of each of those stats over the group. In general the
consolidated value is the sum rounded to 3 decimal places, which can
differ from the sum on fractional inputs (see the counterexample). -/
theorem c8_merge_preserves_integer_counting_stats :
    ∀ g : List Json.Dict, 2 ≤ g.length →
      intValued g "POSS" → intValued g "PTS" →
      intValued g "FGM" → intValued g "FGA" →
      safe_number (Json.dget (merge_group g) "POSS") = sumSafe g "POSS"
      ∧ safe_number (Json.dget (merge_group g) "PTS") = sumSafe g "PTS"
      ∧ safe_number (Json.dget (merge_group g) "FGM") = sumSafe g "FGM"
      ∧ safe_number (Json.dget (merge_group g) "FGA") = sumSafe g "FGA" := by
  intro g _hlen hposs hpts hfgm hfga
  obtain ⟨NP, eP⟩ := sumSafe_int g "POSS" hposs
  obtain ⟨NT, eT⟩ := sumSafe_int g "PTS" hpts
  obtain ⟨NM, eM⟩ := sumSafe_int g "FGM" hfgm
  obtain ⟨NA, eA⟩ := sumSafe_int g "FGA" hfga
  refine ⟨?_, ?_, ?_, ?_⟩
  · rw [merge_group_POSS, eP]
    simp [safe_number, parse_float, Json.pyFloat, round3_intCast]
  · rw [merge_group_PTS, eT]
    simp [safe_number, parse_float, Json.pyFloat, round3_intCast]
  · rw [merge_group_FGM, eM]
    simp [safe_number, parse_float, Json.pyFloat, round3_intCast]
  · rw [merge_group_FGA, eA]
    simp [safe_number, parse_float, Json.pyFloat, round3_intCast]

/-- A synergy row with integer counting stats for player 7. -/
def intRow : Json.Dict :=
  [("PLAYER_ID", .jint 7), ("POSS", .jint 10), ("PTS", .jint 12),
    ("FGM", .jint 5), ("FGA", .jint 9)]

/-- Witness for C8: merging two concrete integer-stat rows preserves all
four counting sums. -/
theorem c8_witness :
    2 ≤ ([intRow, intRow] : List Json.Dict).length
    ∧ (safe_number (Json.dget (merge_group [intRow, intRow]) "POSS") =
          sumSafe [intRow, intRow] "POSS"
        ∧ safe_number (Json.dget (merge_group [intRow, intRow]) "PTS") =
            sumSafe [intRow, intRow] "PTS"
        ∧ safe_number (Json.dget (merge_group [intRow, intRow]) "FGM") =
            sumSafe [intRow, intRow] "FGM"
        ∧ safe_number (Json.dget (merge_group [intRow, intRow]) "FGA") =
            sumSafe [intRow, intRow] "FGA") :=
  ⟨by decide,
    c8_merge_preserves_integer_counting_stats [intRow, intRow] (by decide)
      (fun r hr => ⟨10, by fin_cases hr <;> decide⟩)
      (fun r hr => ⟨12, by fin_cases hr <;> decide⟩)
      (fun r hr => ⟨5, by fin_cases hr <;> decide⟩)
      (fun r hr => ⟨9, by fin_cases hr <;> decide⟩)⟩

/-- A synergy row whose PTS value is the fractional string "0.0001". -/
def fracRow : Json.Dict :=
  [("PLAYER_ID", .jint 7), ("PTS", .fracStr (1 / 10000)), ("POSS", .jint 1)]

/-- COUNTEREXAMPLE to CLAIM C8 as stated: the consolidated row stores the
sum rounded to 3 decimals, so for a group of two rows with PTS = 0.0001
each, the output PTS is 0 while the input sum is 0.0002 — the exact
equality `sum(aggregated.points) == sum(input_rows.points)` fails. -/
theorem c8_rounding_counterexample :
    safe_number (Json.dget (merge_group [fracRow, fracRow]) "PTS") ≠
      sumSafe [fracRow, fracRow] "PTS" := by
  have h2 : sumSafe [fracRow, fracRow] "PTS" = 1 / 5000 := by
    simp [sumSafe, fracRow, safe_number, parse_float, Json.pyFloat, Json.dget]
    norm_num
  have hfl : ⌊(1 : ℚ) / 5⌋ = 0 := by
    rw [Int.floor_eq_iff]
    norm_num
  have h3 : round3 ((1 : ℚ) / 5000) = 0 := by
    unfold round3
    have e : ((1 : ℚ) / 5000) * 1000 = 1 / 5 := by norm_num
    rw [e]
    unfold roundHalfEven
    rw [hfl]
    norm_num
  rw [merge_group_PTS, h2, h3]
  simp [safe_number, parse_float, Json.pyFloat]

end Backend
